import Mathlib

/-!
Verification of the Appoint appointment-booking backend.

This file gives a shallow embedding of the parts of the code base that the
spec talks about: the data model (`main_app/models.py`), the serializer
validation logic (`main_app/api/serializers.py`), the view-level operations
(`main_app/api/views.py`, `account_app/api/views.py`) and the pagination
configuration (`main_app/pagination.py`), together with theorems settling
the spec claims against those definitions.

Modelling conventions:
- `datetime.time` values are embedded as microseconds since midnight
  (`Time := Nat`); this is an order-isomorphic image of Python times, and
  the code only ever compares times.
- `datetime.date` values are embedded as ordinal day numbers (`Date := Nat`).
- Timestamps (`created_at`, the current moment) are seconds since an epoch.
- Database tables are lists of records in insertion (primary-key) order.
- A raised `serializers.ValidationError` is an `Except.error` carrying the
  error kind from the spec taxonomy; the saved database is returned on `ok`.
- The storage layer unique constraint `unique_together = (scheduler, date,
  time)` of `Appointment.Meta` is modelled by `storeInsert` / `storeUpdate`,
  which reject a violating write with `integrityError` (Django raises an
  uncaught `IntegrityError` in that case).
-/

namespace Appoint

/-- Time of day as microseconds since midnight (order-faithful image of
`datetime.time`). -/
abbrev Time := Nat

/-- The Python expression `time(h, m)`. -/
def timeHM (h m : Nat) : Time := (h * 60 + m) * 60 * 1000000

/-- Calendar date as an ordinal day number (order-faithful image of
`datetime.date`). -/
abbrev Date := Nat

abbrev SchedulerId := Nat
abbrev BookerId := Nat
abbrev ApptId := Nat
abbrev RoleUserId := Nat
abbrev UserId := Nat

/-- `main_app.models.RoleUser`: connects an auth user to a role tag. -/
structure RoleUser where
  id : RoleUserId
  user : UserId
  role : String
deriving Repr, DecidableEq

/-- `main_app.models.Scheduler`: scheduler profile row. -/
structure Scheduler where
  id : SchedulerId
  owner : Option RoleUserId
  name : String
  family : String
  phone : String
  bio : String
  is_public_search : Bool
deriving Repr, DecidableEq

/-- `main_app.models.Booker`: booker profile row; `schedulers` is the
many-to-many roster (list of scheduler ids, no duplicates ever created by
`ManyToManyField.add`). -/
structure Booker where
  id : BookerId
  owner : Option RoleUserId
  schedulers : List SchedulerId
  name : String
  family : String
  phone : String
deriving Repr, DecidableEq

/-- `main_app.models.Appointment`: one appointment row. -/
structure Appointment where
  id : ApptId
  scheduler : SchedulerId
  booker : Option BookerId
  booker_name : String
  date : Date
  time : Time
  note : Option String
  created_at : Nat
deriving Repr, DecidableEq

/-- `main_app.models.OTP`: one one-time-code row. -/
structure OTP where
  phone : String
  code : String
  created_at : Nat
deriving Repr, DecidableEq

/-- Error kinds of the spec taxonomy, as raised by the serializers and
views; `integrityError` stands for the storage layer rejecting a write that
violates the `unique_together` constraint, and `notFound` for
`get_object_or_404` misses. -/
inductive VError where
  | invalidTimeWindow
  | slotAlreadyBooked
  | pastDateOrTime
  | schedulerNotInRoster
  | activeAppointmentExists
  | missingBookerIdentity
  | schedulerNotFound
  | integrityError
  | notFound
deriving Repr, DecidableEq

/-- The query `Appointment.objects.filter(scheduler=s, date=d, time=t).exists()`. -/
def slotTaken (db : List Appointment) (s : SchedulerId) (d : Date) (t : Time) : Bool :=
  db.any fun a => a.scheduler == s && a.date == d && a.time == t

/-- Fresh auto-increment primary key for a new appointment row. -/
def nextId (db : List Appointment) : ApptId :=
  db.foldl (fun m a => max m (a.id + 1)) 1

/-- Storage-level INSERT: the database enforces
`unique_together = (scheduler, date, time)` and raises an integrity error
on a violating insert; otherwise the row is appended. -/
def storeInsert (db : List Appointment) (a : Appointment) :
    Except VError (List Appointment) :=
  if slotTaken db a.scheduler a.date a.time then .error .integrityError
  else .ok (db ++ [a])

/-- Storage-level UPDATE of the row with `a.id`: the database enforces
`unique_together = (scheduler, date, time)` against every other row and
raises an integrity error on a violation; otherwise the row is replaced. -/
def storeUpdate (db : List Appointment) (a : Appointment) :
    Except VError (List Appointment) :=
  if db.any (fun b => b.id != a.id && b.scheduler == a.scheduler
      && b.date == a.date && b.time == a.time) then
    .error .integrityError
  else
    .ok (db.map fun b => if b.id == a.id then a else b)

/-- `AppointmentCreateSerializer.validate_time`: the time must satisfy
`time(8,0) <= value < time(20,0)`. -/
def validate_time (t : Time) : Option VError :=
  if t < timeHM 8 0 ∨ timeHM 20 0 ≤ t then some .invalidTimeWindow else none

/-- Admin creation (`AdminPanelViewSet.create_appointment` with
`AppointmentCreateSerializer`): the field validator `validate_time` runs
first, then `validate` performs the slot pre-check, then the row is saved. -/
def adminCreateAppointment (db : List Appointment) (bk : BookerId)
    (s : SchedulerId) (d : Date) (t : Time) (note : Option String)
    (nowTs : Nat) : Except VError (List Appointment) :=
  match validate_time t with
  | some e => .error e
  | none =>
    if slotTaken db s d t then .error .slotAlreadyBooked
    else storeInsert db ⟨nextId db, s, some bk, "", d, t, note, nowTs⟩

/-- The `validate` method shared (textually identical) by
`SchedulerPanelAppointmentCreateSerializer` and
`SchedulerPanelAppointmentUpdateSerializer`: requires `booker` or
`booker_name` to be truthy, and runs the slot pre-check only when a
scheduler was passed in the serializer context and there is no instance
(`if scheduler and not self.instance`). -/
def schedulerPanelValidate (db : List Appointment) (ctx : Option SchedulerId)
    (instPresent : Bool) (bookerTruthy : Bool) (nameTruthy : Bool)
    (d : Date) (t : Time) : Option VError :=
  if !bookerTruthy && !nameTruthy then some .missingBookerIdentity
  else
    match ctx with
    | some s =>
      if !instPresent then
        if slotTaken db s d t then some .slotAlreadyBooked else none
      else none
    | none => none

/-- Scheduler-initiated creation (`SchedulerPanelViewSet.manage_appointments`
with `action == "create"`): the serializer gets the scheduler in its
context and no instance, and the view saves with `scheduler=scheduler`. -/
def schedulerManageCreate (db : List Appointment) (s : SchedulerId)
    (bookerField : Option BookerId) (bookerName : String) (d : Date)
    (t : Time) (note : Option String) (nowTs : Nat) :
    Except VError (List Appointment) :=
  match schedulerPanelValidate db (some s) false bookerField.isSome
      (bookerName != "") d t with
  | some e => .error e
  | none => storeInsert db ⟨nextId db, s, bookerField, bookerName, d, t, note, nowTs⟩

/-- Payload of a scheduler-panel appointment update; each field is `some`
exactly when the request body supplied it (the serializer runs with
`partial=True`), and the `booker` field may be supplied as null. -/
structure SchedUpdatePayload where
  booker : Option (Option BookerId)
  booker_name : Option String
  date : Option Date
  time : Option Time
  note : Option (Option String)
deriving Repr, DecidableEq

/-- The effect of `serializer.save()` on the instance for a scheduler-panel
update: supplied fields overwrite the instance fields. -/
def applySchedPayload (a : Appointment) (p : SchedUpdatePayload) : Appointment :=
  { a with booker := p.booker.getD a.booker,
           booker_name := p.booker_name.getD a.booker_name,
           date := p.date.getD a.date,
           time := p.time.getD a.time,
           note := p.note.getD a.note }

/-- Scheduler-initiated update, serializer-and-save stage on the fetched
instance: the serializer is built WITHOUT a scheduler context and WITH an
instance (`SchedulerPanelAppointmentUpdateSerializer(appointment,
data=request.data, partial=True)`), so its `validate` method never reaches
the slot pre-check; then `save` writes through the store constraint. -/
def schedulerManageUpdateInst (db : List Appointment) (inst : Appointment)
    (p : SchedUpdatePayload) : Except VError (List Appointment) :=
  match schedulerPanelValidate db none true (p.booker.getD none).isSome
      ((p.booker_name.getD "") != "") (p.date.getD inst.date)
      (p.time.getD inst.time) with
  | some e => .error e
  | none => storeUpdate db (applySchedPayload inst p)

/-- Scheduler-initiated update (`SchedulerPanelViewSet.manage_appointments`
with `action == "update"`): looks up the appointment by id and owning
scheduler (404 on miss), then runs the serializer and saves. -/
def schedulerManageUpdate (db : List Appointment) (s : SchedulerId)
    (apptId : ApptId) (p : SchedUpdatePayload) :
    Except VError (List Appointment) :=
  match db.find? (fun a => a.id == apptId && a.scheduler == s) with
  | none => .error .notFound
  | some inst => schedulerManageUpdateInst db inst p

/-- Payload of an admin appointment update (`AppointmentDetailSerializer`
with `partial=True`; its writable fields are `date`, `time`, `note` — the
two username fields are read-only and it declares no validators). -/
structure AdminUpdatePayload where
  date : Option Date
  time : Option Time
  note : Option (Option String)
deriving Repr, DecidableEq

/-- Admin update (`AdminPanelViewSet.appointment_detail`, PUT): looks the
appointment up by primary key (404 on miss) and saves the supplied fields
with no validation at all. -/
def adminUpdateAppointment (db : List Appointment) (apptId : ApptId)
    (p : AdminUpdatePayload) : Except VError (List Appointment) :=
  match db.find? (fun a => a.id == apptId) with
  | none => .error .notFound
  | some inst =>
    storeUpdate db { inst with date := p.date.getD inst.date,
                               time := p.time.getD inst.time,
                               note := p.note.getD inst.note }

/-- The query filter `Q(date__gt=today) | Q(date=today, time__gt=now)`
classifying an appointment as upcoming. -/
def isUpcoming (today : Date) (nowT : Time) (a : Appointment) : Bool :=
  today < a.date || (a.date == today && nowT < a.time)

/-- The active-appointment test of `BookerPanelViewSet.reserve_appointment`:
does the booker hold an upcoming appointment. -/
def hasUpcoming (db : List Appointment) (bk : BookerId) (today : Date)
    (nowT : Time) : Bool :=
  db.any fun a => a.booker == some bk && isUpcoming today nowT a

/-- `BookerAppointmentCreateSerializer.validate`, in source order: roster
membership, today-in-the-future, date-not-in-past, slot pre-check. -/
def bookerReserveValidate (db : List Appointment) (roster : List SchedulerId)
    (s : SchedulerId) (today : Date) (nowT : Time) (d : Date) (t : Time) :
    Option VError :=
  if s ∉ roster then some .schedulerNotInRoster
  else if d = today ∧ t ≤ nowT then some .pastDateOrTime
  else if d < today then some .pastDateOrTime
  else if slotTaken db s d t then some .slotAlreadyBooked
  else none

/-- Booker self-reservation (`BookerPanelViewSet.reserve_appointment`): the
view first rejects when the booker already holds an upcoming appointment,
then runs `BookerAppointmentCreateSerializer` and saves with
`booker=booker`. -/
def reserveAppointment (db : List Appointment) (bkr : Booker) (today : Date)
    (nowT : Time) (s : SchedulerId) (d : Date) (t : Time)
    (note : Option String) (nowTs : Nat) : Except VError (List Appointment) :=
  if hasUpcoming db bkr.id today nowT then .error .activeAppointmentExists
  else
    match bookerReserveValidate db bkr.schedulers s today nowT d t with
    | some e => .error e
    | none => storeInsert db ⟨nextId db, s, some bkr.id, "", d, t, note, nowTs⟩

/-- The default `Appointment.Meta.ordering = ['date', 'time']`. -/
def dateTimeLe (a b : Appointment) : Prop :=
  a.date < b.date ∨ (a.date = b.date ∧ a.time ≤ b.time)

instance : DecidableRel dateTimeLe := fun a b =>
  inferInstanceAs (Decidable (a.date < b.date ∨ (a.date = b.date ∧ a.time ≤ b.time)))

/-- The query of `BookerPanelViewSet.my_appointment` and
`update_my_appointment`: the booker's upcoming appointments under the
model's default ordering, then `.first()`. -/
def firstUpcoming (db : List Appointment) (bk : BookerId) (today : Date)
    (nowT : Time) : Option Appointment :=
  ((db.filter fun a => a.booker == some bk && isUpcoming today nowT a).insertionSort
    dateTimeLe).head?

/-- `BookerPanelUpdateAppointmentProfileSerializer.validate_date`: a
supplied date must not be in the past. -/
def bookerUpd_validate_date (today : Date) (d : Date) : Option VError :=
  if d < today then some .pastDateOrTime else none

/-- `BookerPanelUpdateAppointmentProfileSerializer.validate_time`: a
supplied time must lie in the 08:00 - 20:00 window. -/
def bookerUpd_validate_time (t : Time) : Option VError :=
  if t < timeHM 8 0 ∨ timeHM 20 0 ≤ t then some .invalidTimeWindow else none

/-- Payload of a booker-panel appointment update; fields are `some` exactly
when supplied (the serializer runs with `partial=True`; `scheduler` is
read-only). -/
structure BookerUpdatePayload where
  date : Option Date
  time : Option Time
  note : Option (Option String)
deriving Repr, DecidableEq

/-- Field-validator stage of the booker update serializer: the declared
field validators run on the supplied fields before the object-level
`validate`. -/
def bookerUpdFieldErrors (today : Date) (p : BookerUpdatePayload) :
    Option VError :=
  match p.date.bind (fun d => bookerUpd_validate_date today d) with
  | some e => some e
  | none => p.time.bind bookerUpd_validate_time

/-- `BookerPanelUpdateAppointmentProfileSerializer.validate`: resolves the
candidate date and time from the payload with the instance as fallback,
rejects a today slot whose time is not in the future, then runs the slot
conflict check excluding the instance by its own id. -/
def bookerUpdValidate (db : List Appointment) (inst : Appointment)
    (today : Date) (nowT : Time) (p : BookerUpdatePayload) : Option VError :=
  if p.date.getD inst.date = today ∧ p.time.getD inst.time ≤ nowT then
    some .pastDateOrTime
  else if db.any (fun b => b.scheduler == inst.scheduler
      && b.date == p.date.getD inst.date
      && b.time == p.time.getD inst.time && b.id != inst.id) then
    some .slotAlreadyBooked
  else none

/-- The effect of `serializer.save()` for the booker update: only the
supplied `date`, `time` and `note` fields overwrite the instance. -/
def applyBookerPayload (a : Appointment) (p : BookerUpdatePayload) : Appointment :=
  { a with date := p.date.getD a.date,
           time := p.time.getD a.time,
           note := p.note.getD a.note }

/-- Booker update, serializer-and-save stage on the fetched instance: the
field validators run on the supplied fields, then the object-level
`validate`, then `save` writes through the store constraint. -/
def updateMyAppointmentInst (db : List Appointment) (inst : Appointment)
    (today : Date) (nowT : Time) (p : BookerUpdatePayload) :
    Except VError (List Appointment) :=
  match bookerUpdFieldErrors today p with
  | some e => .error e
  | none =>
    match bookerUpdValidate db inst today nowT p with
    | some e => .error e
    | none => storeUpdate db (applyBookerPayload inst p)

/-- Booker update (`BookerPanelViewSet.update_my_appointment`): fetches the
booker's first upcoming appointment (404 when none), runs the serializer
and saves on success. -/
def updateMyAppointment (db : List Appointment) (bk : BookerId) (today : Date)
    (nowT : Time) (p : BookerUpdatePayload) : Except VError (List Appointment) :=
  match firstUpcoming db bk today nowT with
  | none => .error .notFound
  | some inst => updateMyAppointmentInst db inst today nowT p

/-- Django `ManyToManyField.add`: inserts the relation unless the pair
already exists in the through table (set-like, idempotent). -/
def m2mAdd (roster : List SchedulerId) (s : SchedulerId) : List SchedulerId :=
  if s ∈ roster then roster else roster ++ [s]

/-- `AddSchedulerSerializer` (validate_scheduler_code then save): resolves
the code to a publicly searchable scheduler via
`Scheduler.objects.get(phone=value, is_public_search=True)` (the phone
column is unique, so at most one row matches) and adds it to the booker's
roster. Returns the scheduler id and the new roster. -/
def add_scheduler (schedulers : List Scheduler) (roster : List SchedulerId)
    (code : String) : Except VError (SchedulerId × List SchedulerId) :=
  match schedulers.find? (fun s => s.phone == code && s.is_public_search) with
  | none => .error .schedulerNotFound
  | some s => .ok (s.id, m2mAdd roster s.id)

/-- `get_display_name` of the scheduler-panel appointment serializers:
full name of the linked booker, else the custom `booker_name`, else
"Unnamed". -/
def get_display_name (booker : Option Booker) (booker_name : String) : String :=
  match booker with
  | some b => b.name ++ " " ++ b.family
  | none => if booker_name = "" then "Unnamed" else booker_name

/-- `OTP.is_expired`: `timezone.now() > created_at + timedelta(minutes=3)`. -/
def otp_is_expired (now : Nat) (o : OTP) : Bool :=
  decide (o.created_at + 180 < now)

/-- The lookup
`RoleUser.objects.filter(Q(booker_owner__phone=phone) | Q(scheduler_owner__phone=phone)).first()`. -/
def roleUserForPhone (roleUsers : List RoleUser) (bookers : List Booker)
    (schedulers : List Scheduler) (phone : String) : Option RoleUser :=
  roleUsers.find? fun ru =>
    bookers.any (fun b => b.owner == some ru.id && b.phone == phone)
    || schedulers.any (fun s => s.owner == some ru.id && s.phone == phone)

/-- Outcome of an OTP verification endpoint: `tokens` stands for the JWT
pair issued for the resolved auth user. -/
inductive VerifyOutcome where
  | notFound
  | expired
  | tokens (user : UserId)
  | userNotFound
deriving Repr, DecidableEq

/-- `VerifyOTPView.post`: takes the last row matching (phone, code)
(`.last()` on a model without ordering is the most recently created row),
rejects a missing or expired match, and otherwise issues tokens for the
role user reachable from the phone. -/
def verify_otp (otps : List OTP) (roleUsers : List RoleUser)
    (bookers : List Booker) (schedulers : List Scheduler)
    (phone code : String) (now : Nat) : VerifyOutcome :=
  match (otps.filter fun o => o.phone == phone && o.code == code).getLast? with
  | none => .notFound
  | some o =>
    if otp_is_expired now o then .expired
    else
      match roleUserForPhone roleUsers bookers schedulers phone with
      | some ru => .tokens ru.user
      | none => .userNotFound

/-- `OTPLoginVerifyView.post`: only tests
`OTP.objects.filter(phone=phone, code=code).exists()` — the current time is
never consulted — and issues tokens for the role user reachable from the
phone. -/
def login_verify (otps : List OTP) (roleUsers : List RoleUser)
    (bookers : List Booker) (schedulers : List Scheduler)
    (phone code : String) (_now : Nat) : VerifyOutcome :=
  if otps.any (fun o => o.phone == phone && o.code == code) then
    match roleUserForPhone roleUsers bookers schedulers phone with
    | some ru => .tokens ru.user
    | none => .userNotFound
  else .notFound

/-- Ascending time-of-day order: the `ordering = 'time'` key of
`AppointmentsCPagination`. -/
def timeLeKey (a b : Appointment) : Prop := a.time ≤ b.time

instance : DecidableRel timeLeKey := fun a b =>
  inferInstanceAs (Decidable (a.time ≤ b.time))

instance : IsTotal Appointment timeLeKey :=
  ⟨fun a b => Nat.le_total a.time b.time⟩

instance : IsTrans Appointment timeLeKey :=
  ⟨fun _ _ _ h1 h2 => Nat.le_trans h1 h2⟩

/-- Descending creation order: the `order_by('-created_at')` of the admin
appointment listing. -/
def createdDesc (a b : Appointment) : Prop := b.created_at ≤ a.created_at

instance : DecidableRel createdDesc := fun a b =>
  inferInstanceAs (Decidable (b.created_at ≤ a.created_at))

/-- Descending date order: the `order_by('-date')` of the scheduler-panel
appointment listing. -/
def dateDesc (a b : Appointment) : Prop := b.date ≤ a.date

instance : DecidableRel dateDesc := fun a b =>
  inferInstanceAs (Decidable (b.date ≤ a.date))

/-- `AppointmentsCPagination.page_size`. -/
def AppointmentsCPagination.page_size : Nat := 5

/-- Django REST framework `CursorPagination.paginate_queryset`, modelled at
its interface for the first page (no cursor in the request): cursor
pagination orders the queryset by the paginator's own `ordering` attribute
(`queryset.order_by(*self.ordering)`, which replaces any ordering already
placed on the queryset) and returns the first `page_size` records.
For `AppointmentsCPagination` the ordering attribute is `'time'`. -/
def paginate_queryset (qs : List Appointment) : List Appointment :=
  (qs.insertionSort timeLeKey).take AppointmentsCPagination.page_size

/-- `AdminPanelViewSet.list_appointments`: all appointments ordered by
`-created_at`, handed to `AppointmentsCPagination` (first page). -/
def list_appointments (db : List Appointment) : List Appointment :=
  paginate_queryset (db.insertionSort createdDesc)

/-- `SchedulerPanelViewSet.appointments`: the scheduler's appointments
ordered by `-date`, handed to `AppointmentsCPagination` (first page). -/
def scheduler_appointments (db : List Appointment) (s : SchedulerId) :
    List Appointment :=
  paginate_queryset ((db.filter fun a => a.scheduler == s).insertionSort dateDesc)

/-- The slot-uniqueness invariant of `Appointment.Meta.unique_together`:
no two rows share the (scheduler, date, time) triple. -/
def SlotUnique (db : List Appointment) : Prop :=
  db.Pairwise fun a b => ¬(a.scheduler = b.scheduler ∧ a.date = b.date ∧ a.time = b.time)

instance (db : List Appointment) : Decidable (SlotUnique db) := by
  unfold SlotUnique
  exact List.instDecidablePairwise db

/-! Helper lemmas shared by the claim theorems. -/

theorem slotTaken_iff (db : List Appointment) (s : SchedulerId) (d : Date)
    (t : Time) :
    slotTaken db s d t = true ↔ ∃ a ∈ db, a.scheduler = s ∧ a.date = d ∧ a.time = t := by
  simp [slotTaken, List.any_eq_true, Bool.and_eq_true, and_assoc]

theorem storeInsert_ok_iff (db : List Appointment) (a : Appointment)
    (db2 : List Appointment) :
    storeInsert db a = .ok db2
      ↔ slotTaken db a.scheduler a.date a.time = false ∧ db2 = db ++ [a] := by
  unfold storeInsert
  constructor
  · intro h
    split at h
    · cases h
    · next hc =>
      refine ⟨by simpa using hc, by simpa using h.symm⟩
  · rintro ⟨hf, rfl⟩
    simp [hf]

theorem storeInsert_error_eq {db : List Appointment} {a : Appointment}
    {e : VError} (h : storeInsert db a = .error e) : e = .integrityError := by
  unfold storeInsert at h
  split at h <;> simp_all

theorem storeUpdate_error_eq {db : List Appointment} {a : Appointment}
    {e : VError} (h : storeUpdate db a = .error e) : e = .integrityError := by
  unfold storeUpdate at h
  split at h <;> simp_all

theorem storeInsert_preserves {db db2 : List Appointment} {a : Appointment}
    (h : SlotUnique db) (hok : storeInsert db a = .ok db2) : SlotUnique db2 := by
  obtain ⟨hf, rfl⟩ := (storeInsert_ok_iff db a db2).1 hok
  unfold SlotUnique at h ⊢
  rw [List.pairwise_append]
  refine ⟨h, List.pairwise_singleton _ _, ?_⟩
  intro x hx y hy
  simp only [List.mem_singleton] at hy
  rintro ⟨h1, h2, h3⟩
  rw [hy] at h1 h2 h3
  have hT : slotTaken db a.scheduler a.date a.time = true :=
    (slotTaken_iff db a.scheduler a.date a.time).2 ⟨x, hx, h1, h2, h3⟩
  rw [hT] at hf
  cases hf

theorem storeUpdateConflict_iff (db : List Appointment) (a : Appointment) :
    (db.any fun b => b.id != a.id && b.scheduler == a.scheduler
        && b.date == a.date && b.time == a.time) = true
    ↔ ∃ b ∈ db, b.id ≠ a.id ∧ b.scheduler = a.scheduler ∧ b.date = a.date
        ∧ b.time = a.time := by
  simp [List.any_eq_true, and_assoc]

theorem storeUpdate_ok_iff (db : List Appointment) (a : Appointment)
    (db2 : List Appointment) :
    storeUpdate db a = .ok db2
      ↔ (∀ b ∈ db, b.id ≠ a.id →
            ¬(b.scheduler = a.scheduler ∧ b.date = a.date ∧ b.time = a.time))
        ∧ db2 = db.map fun b => if b.id == a.id then a else b := by
  unfold storeUpdate
  by_cases hc : (db.any fun b => b.id != a.id && b.scheduler == a.scheduler
      && b.date == a.date && b.time == a.time) = true
  · rw [if_pos hc]
    constructor
    · intro h
      cases h
    · rintro ⟨hall, -⟩
      obtain ⟨b, hb, hne, h1, h2, h3⟩ := (storeUpdateConflict_iff db a).1 hc
      exact absurd ⟨h1, h2, h3⟩ (hall b hb hne)
  · rw [if_neg hc]
    constructor
    · intro h
      refine ⟨?_, by simpa using h.symm⟩
      intro b hb hne hconf
      exact hc ((storeUpdateConflict_iff db a).2
        ⟨b, hb, hne, hconf.1, hconf.2.1, hconf.2.2⟩)
    · rintro ⟨-, rfl⟩
      rfl

theorem storeUpdate_preserves {db db2 : List Appointment} {a : Appointment}
    (hids : (db.map fun b => b.id).Nodup) (h : SlotUnique db)
    (hok : storeUpdate db a = .ok db2) : SlotUnique db2 := by
  obtain ⟨hsafe, rfl⟩ := (storeUpdate_ok_iff db a db2).1 hok
  unfold SlotUnique at h ⊢
  rw [List.pairwise_map]
  have hidp : db.Pairwise fun x y => x.id ≠ y.id := by
    rw [List.Nodup, List.pairwise_map] at hids
    exact hids
  refine (h.and hidp).imp_of_mem ?_
  intro x y hx hy hxy
  obtain ⟨hR, hne⟩ := hxy
  by_cases hxa : x.id == a.id
  · by_cases hya : y.id == a.id
    · exact absurd (show x.id = y.id from by
        have h1 : x.id = a.id := by simpa using hxa
        have h2 : y.id = a.id := by simpa using hya
        rw [h1, h2]) hne
    · simp only [if_pos hxa, if_neg hya]
      have hyid : y.id ≠ a.id := by simpa using hya
      intro hc
      exact hsafe y hy hyid ⟨hc.1.symm, hc.2.1.symm, hc.2.2.symm⟩
  · by_cases hya : y.id == a.id
    · simp only [if_neg hxa, if_pos hya]
      have hxid : x.id ≠ a.id := by simpa using hxa
      intro hc
      exact hsafe x hx hxid hc
    · simpa only [if_neg hxa, if_neg hya] using hR

theorem validate_time_some {t : Time} {e : VError}
    (h : validate_time t = some e) : e = .invalidTimeWindow := by
  unfold validate_time at h
  split_ifs at h <;> simp_all

theorem bookerReserveValidate_some {db : List Appointment}
    {roster : List SchedulerId} {s : SchedulerId} {today : Date} {nowT : Time}
    {d : Date} {t : Time} {e : VError}
    (h : bookerReserveValidate db roster s today nowT d t = some e) :
    e = .schedulerNotInRoster ∨ e = .pastDateOrTime ∨ e = .slotAlreadyBooked := by
  unfold bookerReserveValidate at h
  split_ifs at h <;> simp_all

theorem schedulerPanelValidate_some {db : List Appointment}
    {ctx : Option SchedulerId} {ip bt nt : Bool} {d : Date} {t : Time}
    {e : VError}
    (h : schedulerPanelValidate db ctx ip bt nt d t = some e) :
    e = .missingBookerIdentity ∨ e = .slotAlreadyBooked := by
  unfold schedulerPanelValidate at h
  rcases ctx with _ | s <;> split_ifs at h <;> simp_all

theorem bookerUpdValidate_some {db : List Appointment} {inst : Appointment}
    {today : Date} {nowT : Time} {p : BookerUpdatePayload} {e : VError}
    (h : bookerUpdValidate db inst today nowT p = some e) :
    e = .pastDateOrTime ∨ e = .slotAlreadyBooked := by
  unfold bookerUpdValidate at h
  split_ifs at h <;> simp_all

theorem bookerUpdFieldErrors_some {today : Date} {p : BookerUpdatePayload}
    {e : VError} (h : bookerUpdFieldErrors today p = some e) :
    e = .pastDateOrTime ∨ e = .invalidTimeWindow := by
  unfold bookerUpdFieldErrors at h
  split at h
  · next e2 heq =>
    rcases hd : p.date with _ | d
    · rw [hd] at heq
      cases heq
    · rw [hd] at heq
      simp only [Option.some_bind] at heq
      unfold bookerUpd_validate_date at heq
      split_ifs at heq <;> simp_all
  · next heq =>
    rcases ht : p.time with _ | t
    · rw [ht] at h
      cases h
    · rw [ht] at h
      simp only [Option.some_bind] at h
      unfold bookerUpd_validate_time at h
      split_ifs at h <;> simp_all

theorem adminCreate_error_cases {db : List Appointment} {bk : BookerId}
    {s : SchedulerId} {d : Date} {t : Time} {note : Option String} {ts : Nat}
    {e : VError} (h : adminCreateAppointment db bk s d t note ts = .error e) :
    e = .invalidTimeWindow ∨ e = .slotAlreadyBooked ∨ e = .integrityError := by
  unfold adminCreateAppointment at h
  split at h
  · next e2 heq =>
    exact Or.inl ((Except.error.inj h) ▸ validate_time_some heq)
  · split_ifs at h
    · simp only [Except.error.injEq] at h
      exact Or.inr (Or.inl h.symm)
    · exact Or.inr (Or.inr (storeInsert_error_eq h))

theorem schedulerManageCreate_error_cases {db : List Appointment}
    {s : SchedulerId} {bf : Option BookerId} {nm : String} {d : Date}
    {t : Time} {note : Option String} {ts : Nat} {e : VError}
    (h : schedulerManageCreate db s bf nm d t note ts = .error e) :
    e = .missingBookerIdentity ∨ e = .slotAlreadyBooked ∨ e = .integrityError := by
  unfold schedulerManageCreate at h
  split at h
  · next e2 heq =>
    rcases schedulerPanelValidate_some heq with h1 | h1 <;> simp_all
  · exact Or.inr (Or.inr (storeInsert_error_eq h))

theorem reserve_error_active_iff (db : List Appointment) (bkr : Booker)
    (today : Date) (nowT : Time) (s : SchedulerId) (d : Date) (t : Time)
    (note : Option String) (ts : Nat) :
    reserveAppointment db bkr today nowT s d t note ts
        = .error .activeAppointmentExists
      ↔ hasUpcoming db bkr.id today nowT = true := by
  constructor
  · intro h
    by_cases hU : hasUpcoming db bkr.id today nowT = true
    · exact hU
    · exfalso
      unfold reserveAppointment at h
      rw [if_neg hU] at h
      split at h
      · next e2 heq =>
        rcases bookerReserveValidate_some heq with h1 | h1 | h1 <;> simp_all
      · have := storeInsert_error_eq h
        cases this
  · intro h
    unfold reserveAppointment
    rw [if_pos h]

theorem schedulerPanelValidate_missing_iff (db : List Appointment)
    (ctx : Option SchedulerId) (ip bt nt : Bool) (d : Date) (t : Time) :
    schedulerPanelValidate db ctx ip bt nt d t = some .missingBookerIdentity
      ↔ (bt = false ∧ nt = false) := by
  cases bt <;> cases nt <;> rcases ctx with _ | s <;>
    simp [schedulerPanelValidate]

theorem schedulerManageCreate_missing_iff (db : List Appointment)
    (s : SchedulerId) (bf : Option BookerId) (nm : String) (d : Date)
    (t : Time) (note : Option String) (ts : Nat) :
    schedulerManageCreate db s bf nm d t note ts
        = .error .missingBookerIdentity
      ↔ (bf = none ∧ nm = "") := by
  unfold schedulerManageCreate
  constructor
  · intro h
    split at h
    · next e2 heq =>
      have he : e2 = VError.missingBookerIdentity := by
        simpa using h
      rw [he] at heq
      have hbn := (schedulerPanelValidate_missing_iff db (some s) false
        bf.isSome (nm != "") d t).1 heq
      constructor
      · rcases bf with _ | b
        · rfl
        · simpa using hbn.1
      · simpa using hbn.2
    · exact absurd (storeInsert_error_eq h) (by simp)
  · rintro ⟨rfl, rfl⟩
    simp [schedulerPanelValidate]

theorem schedulerManageUpdateInst_missing_iff (db : List Appointment)
    (inst : Appointment) (p : SchedUpdatePayload) :
    schedulerManageUpdateInst db inst p = .error .missingBookerIdentity
      ↔ (p.booker.getD none = none ∧ p.booker_name.getD "" = "") := by
  unfold schedulerManageUpdateInst
  constructor
  · intro h
    split at h
    · next e2 heq =>
      have he : e2 = VError.missingBookerIdentity := by
        simpa using h
      rw [he] at heq
      have hbn := (schedulerPanelValidate_missing_iff db none true
        (p.booker.getD none).isSome ((p.booker_name.getD "") != "")
        (p.date.getD inst.date) (p.time.getD inst.time)).1 heq
      constructor
      · rcases hb : p.booker.getD none with _ | b
        · rfl
        · rw [hb] at hbn
          simp at hbn
      · simpa using hbn.2
    · exact absurd (storeUpdate_error_eq h) (by simp)
  · rintro ⟨h1, h2⟩
    simp [schedulerPanelValidate, h1, h2]

theorem schedulerManageUpdate_missing_iff {db : List Appointment}
    {s : SchedulerId} {i : ApptId} {inst : Appointment}
    (p : SchedUpdatePayload)
    (hfind : db.find? (fun a => a.id == i && a.scheduler == s) = some inst) :
    schedulerManageUpdate db s i p = .error .missingBookerIdentity
      ↔ (p.booker.getD none = none ∧ p.booker_name.getD "" = "") := by
  unfold schedulerManageUpdate
  rw [hfind]
  exact schedulerManageUpdateInst_missing_iff db inst p

/-! Claim theorems. -/

/-- C5: a booker self-reservation attempt fails with
`ActiveAppointmentExists` if and only if the booker already holds an
upcoming appointment (date strictly after today, or today with a time
strictly after now) at the moment of the request — so once every
appointment of the booker is past, this rule no longer blocks a new
reservation — and the rule is not applied to scheduler- or
admin-initiated creation, which never produce this error. -/
theorem c5_one_active_appointment_per_booker
    (db : List Appointment) (bkr : Booker) (today : Date) (nowT : Time)
    (s : SchedulerId) (d : Date) (t : Time) (note : Option String) (ts : Nat)
    (bk2 : BookerId) (bf : Option BookerId) (nm : String) :
    (reserveAppointment db bkr today nowT s d t note ts
        = .error .activeAppointmentExists
      ↔ hasUpcoming db bkr.id today nowT = true)
    ∧ adminCreateAppointment db bk2 s d t note ts
        ≠ .error .activeAppointmentExists
    ∧ schedulerManageCreate db s bf nm d t note ts
        ≠ .error .activeAppointmentExists := by
  refine ⟨reserve_error_active_iff db bkr today nowT s d t note ts,
    fun h => ?_, fun h => ?_⟩
  · rcases adminCreate_error_cases h with h1 | h1 | h1 <;> cases h1
  · rcases schedulerManageCreate_error_cases h with h1 | h1 | h1 <;> cases h1

/-- Witness for C5: with an upcoming appointment on file (date 5 is after
today 4), the reservation attempt is rejected with
`ActiveAppointmentExists`. -/
theorem c5_witness :
    reserveAppointment [⟨1, 1, some 1, "", 5, 100, none, 0⟩]
        ⟨1, none, [1], "n", "f", "p"⟩ 4 0 1 5 100 none 0
      = .error .activeAppointmentExists :=
  (c5_one_active_appointment_per_booker [⟨1, 1, some 1, "", 5, 100, none, 0⟩]
    ⟨1, none, [1], "n", "f", "p"⟩ 4 0 1 5 100 none 0 2 none "x").1.mpr (by decide)

/-- C7: a scheduler-initiated creation or update fails with
`MissingBookerIdentity` exactly when the payload supplies neither a linked
booker reference nor a non-empty free-text booker name; and the derived
display name is the linked booker's "name family" when a booker is linked,
otherwise the free-text `booker_name`, otherwise the literal "Unnamed". -/
theorem c7_missing_identity_and_display_name
    (db : List Appointment) (s : SchedulerId) (bf : Option BookerId)
    (nm : String) (d : Date) (t : Time) (note : Option String) (ts : Nat)
    (i : ApptId) (p : SchedUpdatePayload) (inst : Appointment) (b : Booker)
    (nm2 : String)
    (hfind : db.find? (fun a => a.id == i && a.scheduler == s) = some inst) :
    (schedulerManageCreate db s bf nm d t note ts
        = .error .missingBookerIdentity
      ↔ (bf = none ∧ nm = ""))
    ∧ (schedulerManageUpdate db s i p = .error .missingBookerIdentity
      ↔ (p.booker.getD none = none ∧ p.booker_name.getD "" = ""))
    ∧ get_display_name (some b) nm2 = b.name ++ " " ++ b.family
    ∧ get_display_name none "" = "Unnamed"
    ∧ (nm2 ≠ "" → get_display_name none nm2 = nm2) :=
  ⟨schedulerManageCreate_missing_iff db s bf nm d t note ts,
   schedulerManageUpdate_missing_iff p hfind,
   rfl, rfl, fun h => by simp [get_display_name, h]⟩

/-- Witness for C7 at a concrete state: an update payload supplying
neither a booker nor a booker name is rejected with
`MissingBookerIdentity`, and the display-name fallbacks evaluate as
stated. -/
theorem c7_witness :
    schedulerManageUpdate [⟨1, 1, none, "W", 10, 100, none, 0⟩] 1 1
        ⟨none, none, none, none, none⟩ = .error .missingBookerIdentity
    ∧ get_display_name (some ⟨7, none, [], "John", "Doe", "p"⟩) "ignored"
        = "John Doe"
    ∧ get_display_name none "" = "Unnamed"
    ∧ get_display_name none "Walk-in" = "Walk-in" := by
  have h := c7_missing_identity_and_display_name
    [⟨1, 1, none, "W", 10, 100, none, 0⟩] 1 none "" 10 100 none 0 1
    ⟨none, none, none, none, none⟩ ⟨1, 1, none, "W", 10, 100, none, 0⟩
    ⟨7, none, [], "John", "Doe", "p"⟩ "Walk-in" (by decide)
  exact ⟨h.2.1.mpr (by decide), h.2.2.1, h.2.2.2.1,
    h.2.2.2.2 (by decide)⟩

theorem mem_m2mAdd_self (roster : List SchedulerId) (s : SchedulerId) :
    s ∈ m2mAdd roster s := by
  unfold m2mAdd
  split_ifs with h
  · exact h
  · simp

theorem m2mAdd_count {roster : List SchedulerId} {s : SchedulerId}
    (h : roster.count s ≤ 1) : (m2mAdd roster s).count s = 1 := by
  unfold m2mAdd
  split_ifs with hmem
  · have h1 : 0 < roster.count s := List.count_pos_iff.2 hmem
    omega
  · have h0 : roster.count s = 0 := by
      simpa using List.count_eq_zero_of_not_mem hmem
    simp [List.count_append, h0]

theorem m2mAdd_mem_eq {roster : List SchedulerId} {s : SchedulerId}
    (h : s ∈ roster) : m2mAdd roster s = roster := by
  unfold m2mAdd
  exact if_pos h

theorem updateMyAppointment_eq_inst {db : List Appointment} {bk : BookerId}
    {today : Date} {nowT : Time} {inst : Appointment}
    (p : BookerUpdatePayload)
    (hfu : firstUpcoming db bk today nowT = some inst) :
    updateMyAppointment db bk today nowT p
      = updateMyAppointmentInst db inst today nowT p := by
  unfold updateMyAppointment
  rw [hfu]

theorem schedulerManageUpdate_eq_inst {db : List Appointment}
    {s : SchedulerId} {i : ApptId} {inst : Appointment}
    (p : SchedUpdatePayload)
    (hfind : db.find? (fun a => a.id == i && a.scheduler == s) = some inst) :
    schedulerManageUpdate db s i p = schedulerManageUpdateInst db inst p := by
  unfold schedulerManageUpdate
  rw [hfind]

theorem schedulerManageUpdate_error_cases {db : List Appointment}
    {s : SchedulerId} {i : ApptId} {p : SchedUpdatePayload} {e : VError}
    (h : schedulerManageUpdate db s i p = .error e) :
    e = .notFound ∨ e = .missingBookerIdentity ∨ e = .slotAlreadyBooked
      ∨ e = .integrityError := by
  unfold schedulerManageUpdate at h
  split at h
  · simp_all
  · next inst hfind =>
    unfold schedulerManageUpdateInst at h
    split at h
    · next e2 heq =>
      rcases schedulerPanelValidate_some heq with h1 | h1 <;> simp_all
    · exact Or.inr (Or.inr (Or.inr (storeUpdate_error_eq h)))

theorem reserve_error_cases {db : List Appointment} {bkr : Booker}
    {today : Date} {nowT : Time} {s : SchedulerId} {d : Date} {t : Time}
    {note : Option String} {ts : Nat} {e : VError}
    (h : reserveAppointment db bkr today nowT s d t note ts = .error e) :
    e = .activeAppointmentExists ∨ e = .schedulerNotInRoster
      ∨ e = .pastDateOrTime ∨ e = .slotAlreadyBooked ∨ e = .integrityError := by
  unfold reserveAppointment at h
  split_ifs at h
  · simp_all
  · split at h
    · next e2 heq =>
      rcases bookerReserveValidate_some heq with h1 | h1 | h1 <;> simp_all
    · exact Or.inr (Or.inr (Or.inr (Or.inr (storeInsert_error_eq h))))

theorem adminCreate_err_window {db : List Appointment} {bk : BookerId}
    {s : SchedulerId} {d : Date} {t : Time} {note : Option String} {ts : Nat}
    (hw : t < timeHM 8 0 ∨ timeHM 20 0 ≤ t) :
    adminCreateAppointment db bk s d t note ts = .error .invalidTimeWindow := by
  have hv : validate_time t = some .invalidTimeWindow := by
    unfold validate_time
    rw [if_pos hw]
  unfold adminCreateAppointment
  rw [hv]

theorem adminCreate_err_slot {db : List Appointment} {bk : BookerId}
    {s : SchedulerId} {d : Date} {t : Time} {note : Option String} {ts : Nat}
    (hw : ¬(t < timeHM 8 0 ∨ timeHM 20 0 ≤ t))
    (hst : slotTaken db s d t = true) :
    adminCreateAppointment db bk s d t note ts = .error .slotAlreadyBooked := by
  have hv : validate_time t = none := by
    unfold validate_time
    rw [if_neg hw]
  unfold adminCreateAppointment
  rw [hv]
  show (if slotTaken db s d t then Except.error VError.slotAlreadyBooked
      else storeInsert db ⟨nextId db, s, some bk, "", d, t, note, ts⟩)
    = Except.error VError.slotAlreadyBooked
  rw [if_pos hst]

theorem adminCreate_eq_insert {db : List Appointment} {bk : BookerId}
    {s : SchedulerId} {d : Date} {t : Time} {note : Option String} {ts : Nat}
    (hw : ¬(t < timeHM 8 0 ∨ timeHM 20 0 ≤ t))
    (hst : slotTaken db s d t = false) :
    adminCreateAppointment db bk s d t note ts
      = storeInsert db ⟨nextId db, s, some bk, "", d, t, note, ts⟩ := by
  have hv : validate_time t = none := by
    unfold validate_time
    rw [if_neg hw]
  unfold adminCreateAppointment
  rw [hv]
  show (if slotTaken db s d t then Except.error VError.slotAlreadyBooked
      else storeInsert db ⟨nextId db, s, some bk, "", d, t, note, ts⟩)
    = storeInsert db ⟨nextId db, s, some bk, "", d, t, note, ts⟩
  rw [if_neg (by simp [hst])]

theorem adminCreate_ok_elim {db : List Appointment} {bk : BookerId}
    {s : SchedulerId} {d : Date} {t : Time} {note : Option String} {ts : Nat}
    {db2 : List Appointment}
    (h : adminCreateAppointment db bk s d t note ts = .ok db2) :
    ¬(t < timeHM 8 0 ∨ timeHM 20 0 ≤ t) ∧ slotTaken db s d t = false
      ∧ storeInsert db ⟨nextId db, s, some bk, "", d, t, note, ts⟩ = .ok db2 := by
  by_cases hw : t < timeHM 8 0 ∨ timeHM 20 0 ≤ t
  · rw [adminCreate_err_window hw] at h
    cases h
  · rcases hst : slotTaken db s d t with _ | _
    · exact ⟨hw, rfl, (adminCreate_eq_insert hw hst).symm.trans h⟩
    · rw [adminCreate_err_slot hw hst] at h
      cases h

theorem schedulerManageCreate_err {db : List Appointment} {s : SchedulerId}
    {bf : Option BookerId} {nm : String} {d : Date} {t : Time}
    {note : Option String} {ts : Nat} {e : VError}
    (hv : schedulerPanelValidate db (some s) false bf.isSome (nm != "") d t
      = some e) :
    schedulerManageCreate db s bf nm d t note ts = .error e := by
  unfold schedulerManageCreate
  rw [hv]

theorem schedulerManageCreate_eq_insert {db : List Appointment}
    {s : SchedulerId} {bf : Option BookerId} {nm : String} {d : Date}
    {t : Time} {note : Option String} {ts : Nat}
    (hv : schedulerPanelValidate db (some s) false bf.isSome (nm != "") d t
      = none) :
    schedulerManageCreate db s bf nm d t note ts
      = storeInsert db ⟨nextId db, s, bf, nm, d, t, note, ts⟩ := by
  unfold schedulerManageCreate
  rw [hv]

theorem schedulerManageCreate_ok_elim {db : List Appointment}
    {s : SchedulerId} {bf : Option BookerId} {nm : String} {d : Date}
    {t : Time} {note : Option String} {ts : Nat} {db2 : List Appointment}
    (h : schedulerManageCreate db s bf nm d t note ts = .ok db2) :
    schedulerPanelValidate db (some s) false bf.isSome (nm != "") d t = none
      ∧ storeInsert db ⟨nextId db, s, bf, nm, d, t, note, ts⟩ = .ok db2 := by
  rcases hv : schedulerPanelValidate db (some s) false bf.isSome (nm != "") d t
    with _ | e2
  · exact ⟨rfl, (schedulerManageCreate_eq_insert hv).symm.trans h⟩
  · rw [schedulerManageCreate_err hv] at h
    cases h

theorem reserve_err_validate {db : List Appointment} {bkr : Booker}
    {today : Date} {nowT : Time} {s : SchedulerId} {d : Date} {t : Time}
    {note : Option String} {ts : Nat} {e : VError}
    (hu : hasUpcoming db bkr.id today nowT = false)
    (hv : bookerReserveValidate db bkr.schedulers s today nowT d t = some e) :
    reserveAppointment db bkr today nowT s d t note ts = .error e := by
  unfold reserveAppointment
  rw [if_neg (by simp [hu]), hv]

theorem reserve_eq_insert {db : List Appointment} {bkr : Booker}
    {today : Date} {nowT : Time} {s : SchedulerId} {d : Date} {t : Time}
    {note : Option String} {ts : Nat}
    (hu : hasUpcoming db bkr.id today nowT = false)
    (hv : bookerReserveValidate db bkr.schedulers s today nowT d t = none) :
    reserveAppointment db bkr today nowT s d t note ts
      = storeInsert db ⟨nextId db, s, some bkr.id, "", d, t, note, ts⟩ := by
  unfold reserveAppointment
  rw [if_neg (by simp [hu]), hv]

theorem reserve_ok_elim {db : List Appointment} {bkr : Booker}
    {today : Date} {nowT : Time} {s : SchedulerId} {d : Date} {t : Time}
    {note : Option String} {ts : Nat} {db2 : List Appointment}
    (h : reserveAppointment db bkr today nowT s d t note ts = .ok db2) :
    hasUpcoming db bkr.id today nowT = false
    ∧ bookerReserveValidate db bkr.schedulers s today nowT d t = none
    ∧ storeInsert db ⟨nextId db, s, some bkr.id, "", d, t, note, ts⟩
        = .ok db2 := by
  by_cases hu : hasUpcoming db bkr.id today nowT = true
  · have he : reserveAppointment db bkr today nowT s d t note ts
        = .error .activeAppointmentExists := by
      unfold reserveAppointment
      rw [if_pos hu]
    rw [he] at h
    cases h
  · have hu2 : hasUpcoming db bkr.id today nowT = false := by
      simpa using hu
    rcases hv : bookerReserveValidate db bkr.schedulers s today nowT d t
      with _ | e2
    · exact ⟨hu2, rfl, (reserve_eq_insert hu2 hv).symm.trans h⟩
    · rw [reserve_err_validate hu2 hv] at h
      cases h

theorem bookerReserveValidate_none {db : List Appointment}
    {roster : List SchedulerId} {s : SchedulerId} {today : Date} {nowT : Time}
    {d : Date} {t : Time}
    (h : bookerReserveValidate db roster s today nowT d t = none) :
    s ∈ roster ∧ ¬(d = today ∧ t ≤ nowT) ∧ ¬(d < today)
      ∧ slotTaken db s d t = false := by
  unfold bookerReserveValidate at h
  split_ifs at h with h1 h2 h3 h4
  exact ⟨h1, h2, h3, by simpa using h4⟩

theorem bookerReserveValidate_past {db : List Appointment}
    {roster : List SchedulerId} {s : SchedulerId} {today : Date} {nowT : Time}
    {d : Date} {t : Time} (hr : s ∈ roster)
    (hviol : d < today ∨ (d = today ∧ t ≤ nowT)) :
    bookerReserveValidate db roster s today nowT d t = some .pastDateOrTime := by
  unfold bookerReserveValidate
  rw [if_neg (by simpa using hr)]
  by_cases h2 : d = today ∧ t ≤ nowT
  · rw [if_pos h2]
  · rw [if_neg h2]
    have h3 : d < today := by
      rcases hviol with h | h
      · exact h
      · exact absurd h h2
    rw [if_pos h3]

theorem updateMyAppointmentInst_err_field {db : List Appointment}
    {inst : Appointment} {today : Date} {nowT : Time}
    {p : BookerUpdatePayload} {e : VError}
    (hfe : bookerUpdFieldErrors today p = some e) :
    updateMyAppointmentInst db inst today nowT p = .error e := by
  unfold updateMyAppointmentInst
  rw [hfe]

theorem updateMyAppointmentInst_err_validate {db : List Appointment}
    {inst : Appointment} {today : Date} {nowT : Time}
    {p : BookerUpdatePayload} {e : VError}
    (hfe : bookerUpdFieldErrors today p = none)
    (hv : bookerUpdValidate db inst today nowT p = some e) :
    updateMyAppointmentInst db inst today nowT p = .error e := by
  unfold updateMyAppointmentInst
  rw [hfe]
  show (match bookerUpdValidate db inst today nowT p with
      | some e => Except.error e
      | none => storeUpdate db (applyBookerPayload inst p)) = Except.error e
  rw [hv]

theorem updateMyAppointmentInst_eq_store {db : List Appointment}
    {inst : Appointment} {today : Date} {nowT : Time}
    {p : BookerUpdatePayload}
    (hfe : bookerUpdFieldErrors today p = none)
    (hv : bookerUpdValidate db inst today nowT p = none) :
    updateMyAppointmentInst db inst today nowT p
      = storeUpdate db (applyBookerPayload inst p) := by
  unfold updateMyAppointmentInst
  rw [hfe]
  show (match bookerUpdValidate db inst today nowT p with
      | some e => Except.error e
      | none => storeUpdate db (applyBookerPayload inst p))
    = storeUpdate db (applyBookerPayload inst p)
  rw [hv]

theorem updateMyAppointmentInst_ok_elim {db : List Appointment}
    {inst : Appointment} {today : Date} {nowT : Time}
    {p : BookerUpdatePayload} {db2 : List Appointment}
    (h : updateMyAppointmentInst db inst today nowT p = .ok db2) :
    bookerUpdFieldErrors today p = none
    ∧ bookerUpdValidate db inst today nowT p = none
    ∧ storeUpdate db (applyBookerPayload inst p) = .ok db2 := by
  rcases hfe : bookerUpdFieldErrors today p with _ | e1
  · rcases hv : bookerUpdValidate db inst today nowT p with _ | e2
    · exact ⟨rfl, rfl, (updateMyAppointmentInst_eq_store hfe hv).symm.trans h⟩
    · rw [updateMyAppointmentInst_err_validate hfe hv] at h
      cases h
  · rw [updateMyAppointmentInst_err_field hfe] at h
    cases h

theorem bookerUpdFieldErrors_none_elim {today : Date}
    {p : BookerUpdatePayload}
    (h : bookerUpdFieldErrors today p = none) :
    p.date.bind (fun d => bookerUpd_validate_date today d) = none
    ∧ p.time.bind bookerUpd_validate_time = none := by
  unfold bookerUpdFieldErrors at h
  split at h
  · cases h
  · next heq => exact ⟨heq, h⟩

theorem bookerUpdValidate_none_elim {db : List Appointment}
    {inst : Appointment} {today : Date} {nowT : Time}
    {p : BookerUpdatePayload}
    (h : bookerUpdValidate db inst today nowT p = none) :
    ¬(p.date.getD inst.date = today ∧ p.time.getD inst.time ≤ nowT)
    ∧ (db.any (fun b => b.scheduler == inst.scheduler
        && b.date == p.date.getD inst.date
        && b.time == p.time.getD inst.time && b.id != inst.id)) = false := by
  unfold bookerUpdValidate at h
  split_ifs at h with h1 h2
  exact ⟨h1, by simpa using h2⟩

theorem bookerUpdValidate_slot {db : List Appointment} {inst : Appointment}
    {today : Date} {nowT : Time} {p : BookerUpdatePayload}
    (h1 : ¬(p.date.getD inst.date = today ∧ p.time.getD inst.time ≤ nowT))
    (h2 : (db.any (fun b => b.scheduler == inst.scheduler
        && b.date == p.date.getD inst.date
        && b.time == p.time.getD inst.time && b.id != inst.id)) = true) :
    bookerUpdValidate db inst today nowT p = some .slotAlreadyBooked := by
  unfold bookerUpdValidate
  rw [if_neg h1, if_pos h2]

theorem bookerUpdValidate_past {db : List Appointment} {inst : Appointment}
    {today : Date} {nowT : Time} {p : BookerUpdatePayload}
    (h1 : p.date.getD inst.date = today ∧ p.time.getD inst.time ≤ nowT) :
    bookerUpdValidate db inst today nowT p = some .pastDateOrTime := by
  unfold bookerUpdValidate
  rw [if_pos h1]

theorem bookerConflict_iff (db : List Appointment) (inst : Appointment)
    (dd : Date) (tt : Time) :
    (db.any fun b => b.scheduler == inst.scheduler && b.date == dd
        && b.time == tt && b.id != inst.id) = true
    ↔ ∃ b ∈ db, b.scheduler = inst.scheduler ∧ b.date = dd ∧ b.time = tt
        ∧ b.id ≠ inst.id := by
  simp [List.any_eq_true, and_assoc]

/-- C8: `add_scheduler` fails with `SchedulerNotFound` exactly when no
publicly searchable scheduler carries the given phone code; on success the
add is idempotent — repeating it returns the same scheduler and leaves the
roster unchanged — and the roster then holds exactly one entry for that
scheduler (given the many-to-many invariant that it held at most one
before). -/
theorem c8_add_scheduler_idempotent
    (schedulers : List Scheduler) (roster : List SchedulerId) (code : String)
    (sid : SchedulerId) (roster2 : List SchedulerId) :
    ((∀ s ∈ schedulers, ¬(s.phone = code ∧ s.is_public_search = true))
      ↔ add_scheduler schedulers roster code = .error .schedulerNotFound)
    ∧ (add_scheduler schedulers roster code = .ok (sid, roster2) →
        add_scheduler schedulers roster2 code = .ok (sid, roster2)
        ∧ (roster.count sid ≤ 1 → roster2.count sid = 1)) := by
  constructor
  · constructor
    · intro h
      unfold add_scheduler
      rw [List.find?_eq_none.2]
      intro s hs
      simp only [Bool.and_eq_true, beq_iff_eq, not_and]
      intro h1 h2
      exact h s hs ⟨h1, h2⟩
    · intro h s hs hc
      unfold add_scheduler at h
      rcases hfind : schedulers.find? (fun s => s.phone == code && s.is_public_search)
        with _ | s0
      · rw [List.find?_eq_none] at hfind
        exact hfind s hs (by simp [hc.1, hc.2])
      · rw [hfind] at h
        cases h
  · intro h
    unfold add_scheduler at h ⊢
    rcases hfind : schedulers.find? (fun s => s.phone == code && s.is_public_search)
      with _ | s0
    · rw [hfind] at h
      cases h
    · rw [hfind] at h
      simp only [Except.ok.injEq, Prod.mk.injEq] at h
      obtain ⟨hid, hr⟩ := h
      subst hid
      constructor
      · rw [hfind]
        have hmem : s0.id ∈ roster2 := by
          rw [← hr]
          exact mem_m2mAdd_self roster s0.id
        show Except.ok (s0.id, m2mAdd roster2 s0.id) = Except.ok (s0.id, roster2)
        rw [m2mAdd_mem_eq hmem]
      · intro hcount
        rw [← hr]
        exact m2mAdd_count hcount

/-- Witness for C8 at a concrete state: a second add of scheduler 3 is a
no-op and the roster holds exactly one entry for it; an unknown code is
rejected with `SchedulerNotFound`. -/
theorem c8_witness :
    add_scheduler [⟨3, none, "n", "f", "09120000000", "bio", true⟩] [3]
        "09120000000" = .ok (3, [3])
    ∧ ([3] : List SchedulerId).count 3 = 1
    ∧ add_scheduler [⟨3, none, "n", "f", "09120000000", "bio", true⟩] []
        "09999999999" = .error .schedulerNotFound := by
  have h := (c8_add_scheduler_idempotent
    [⟨3, none, "n", "f", "09120000000", "bio", true⟩] [] "09120000000" 3 [3]).2
    rfl
  have h2 := (c8_add_scheduler_idempotent
    [⟨3, none, "n", "f", "09120000000", "bio", true⟩] [] "09999999999" 0 []).1.mp
    (by decide)
  exact ⟨h.1, h.2 (by decide), h2⟩

/-- C1 (amended): every create path preserves slot uniqueness, and a create
attempt whose (scheduler, date, time) triple equals that of an existing
appointment always fails and creates nothing; the failure is
`SlotAlreadyBooked` whenever the attempt passes the path's earlier
validations (the time window for admin creation, the booker-identity
requirement for scheduler creation, and the active-appointment, roster and
date checks for booker creation) — otherwise that earlier validation's
error is reported instead, and still nothing is created. -/
theorem c1_slot_uniqueness
    (db : List Appointment) (bk : BookerId) (bkr : Booker) (s : SchedulerId)
    (d : Date) (t : Time) (note : Option String) (ts : Nat)
    (bf : Option BookerId) (nm : String) (today : Date) (nowT : Time) :
    (∀ db2, adminCreateAppointment db bk s d t note ts = .ok db2 →
        SlotUnique db → SlotUnique db2)
    ∧ (∀ db2, schedulerManageCreate db s bf nm d t note ts = .ok db2 →
        SlotUnique db → SlotUnique db2)
    ∧ (∀ db2, reserveAppointment db bkr today nowT s d t note ts = .ok db2 →
        SlotUnique db → SlotUnique db2)
    ∧ (slotTaken db s d t = true →
        (∀ db2, adminCreateAppointment db bk s d t note ts ≠ .ok db2)
        ∧ (∀ db2, schedulerManageCreate db s bf nm d t note ts ≠ .ok db2)
        ∧ (∀ db2, reserveAppointment db bkr today nowT s d t note ts ≠ .ok db2))
    ∧ (slotTaken db s d t = true → ¬(t < timeHM 8 0 ∨ timeHM 20 0 ≤ t) →
        adminCreateAppointment db bk s d t note ts = .error .slotAlreadyBooked)
    ∧ (slotTaken db s d t = true → (bf.isSome = true ∨ nm ≠ "") →
        schedulerManageCreate db s bf nm d t note ts = .error .slotAlreadyBooked)
    ∧ (slotTaken db s d t = true → hasUpcoming db bkr.id today nowT = false →
        s ∈ bkr.schedulers → ¬(d = today ∧ t ≤ nowT) → ¬(d < today) →
        reserveAppointment db bkr today nowT s d t note ts
          = .error .slotAlreadyBooked) := by
  refine ⟨?_, ?_, ?_, ?_, ?_, ?_, ?_⟩
  · intro db2 h hU
    exact storeInsert_preserves hU (adminCreate_ok_elim h).2.2
  · intro db2 h hU
    exact storeInsert_preserves hU (schedulerManageCreate_ok_elim h).2
  · intro db2 h hU
    exact storeInsert_preserves hU (reserve_ok_elim h).2.2
  · intro hdup
    refine ⟨fun db2 h => ?_, fun db2 h => ?_, fun db2 h => ?_⟩
    · have hst := (adminCreate_ok_elim h).2.1
      rw [hst] at hdup
      cases hdup
    · have hsi := (schedulerManageCreate_ok_elim h).2
      have hst : slotTaken db s d t = false :=
        ((storeInsert_ok_iff _ _ _).1 hsi).1
      rw [hst] at hdup
      cases hdup
    · have hv := (reserve_ok_elim h).2.1
      have hst := (bookerReserveValidate_none hv).2.2.2
      rw [hst] at hdup
      cases hdup
  · intro hdup hw
    exact adminCreate_err_slot hw hdup
  · intro hdup hid
    have hcond : (!bf.isSome && !(nm != "")) = false := by
      rcases hid with h | h
      · rw [h]
        rfl
      · have h2 : (nm != "") = true := by simpa using h
        rw [h2]
        simp
    have hv : schedulerPanelValidate db (some s) false bf.isSome (nm != "") d t
        = some .slotAlreadyBooked := by
      unfold schedulerPanelValidate
      rw [hcond]
      simp [hdup]
    exact schedulerManageCreate_err hv
  · intro hdup hu hr h2 h3
    have hv : bookerReserveValidate db bkr.schedulers s today nowT d t
        = some .slotAlreadyBooked := by
      unfold bookerReserveValidate
      rw [if_neg (by simpa using hr), if_neg h2, if_neg h3, if_pos hdup]
    exact reserve_err_validate hu hv

/-- Counterexample for C1 as stated: a scheduler creates an appointment at
20:30 (that path has no time-window check), and an admin create attempt on
the identical occupied triple is then rejected with `InvalidTimeWindow`,
not with `SlotAlreadyBooked` — the field validator runs before the slot
pre-check. -/
theorem c1_counterexample :
    schedulerManageCreate [] 4 none "Walk-in" 11 (timeHM 20 30) none 0
      = .ok [⟨1, 4, none, "Walk-in", 11, timeHM 20 30, none, 0⟩]
    ∧ slotTaken [⟨1, 4, none, "Walk-in", 11, timeHM 20 30, none, 0⟩] 4 11
        (timeHM 20 30) = true
    ∧ adminCreateAppointment [⟨1, 4, none, "Walk-in", 11, timeHM 20 30, none, 0⟩]
        9 4 11 (timeHM 20 30) none 1 = .error .invalidTimeWindow
    ∧ VError.invalidTimeWindow ≠ VError.slotAlreadyBooked :=
  ⟨rfl, rfl, rfl, by decide⟩

/-- Witness for C1: a duplicate admin create attempt with an in-window time
on an occupied slot is rejected with `SlotAlreadyBooked`. -/
theorem c1_witness :
    adminCreateAppointment [⟨1, 4, some 2, "", 11, timeHM 9 0, none, 0⟩] 9 4 11
        (timeHM 9 0) none 1 = .error .slotAlreadyBooked :=
  (c1_slot_uniqueness [⟨1, 4, some 2, "", 11, timeHM 9 0, none, 0⟩] 9
      ⟨2, none, [4], "n", "f", "p"⟩ 4 11 (timeHM 9 0) none 1 none "x" 0 0
    ).2.2.2.2.1 (by decide) (by decide)

/-- C6 (amended): booker-initiated creation and booker-initiated update
enforce date-not-in-past: a violating candidate (date before today, or
today with a time not strictly after now) is never written, and it is
rejected with `PastDateOrTime` provided the path's earlier checks pass (for
creation: no held upcoming appointment and the scheduler in the roster; for
update: the supplied fields pass the field validators) — when an earlier
check also fails, that check's error is reported instead. -/
theorem c6_date_not_past
    (db : List Appointment) (bkr : Booker) (today : Date) (nowT : Time)
    (s : SchedulerId) (d : Date) (t : Time) (note : Option String) (ts : Nat)
    (bk2 : BookerId) (bp : BookerUpdatePayload) (inst : Appointment)
    (d2 : Date) :
    (hasUpcoming db bkr.id today nowT = false → s ∈ bkr.schedulers →
        (d < today ∨ (d = today ∧ t ≤ nowT)) →
        reserveAppointment db bkr today nowT s d t note ts
          = .error .pastDateOrTime)
    ∧ ((d < today ∨ (d = today ∧ t ≤ nowT)) →
        ∀ db2, reserveAppointment db bkr today nowT s d t note ts ≠ .ok db2)
    ∧ (firstUpcoming db bk2 today nowT = some inst → bp.date = some d2 →
        d2 < today →
        updateMyAppointment db bk2 today nowT bp = .error .pastDateOrTime)
    ∧ (firstUpcoming db bk2 today nowT = some inst →
        bookerUpdFieldErrors today bp = none →
        bp.date.getD inst.date = today → bp.time.getD inst.time ≤ nowT →
        updateMyAppointment db bk2 today nowT bp = .error .pastDateOrTime)
    ∧ (firstUpcoming db bk2 today nowT = some inst →
        ∀ db2, updateMyAppointment db bk2 today nowT bp = .ok db2 →
          (∀ d3, bp.date = some d3 → ¬d3 < today)
          ∧ ¬(bp.date.getD inst.date = today
              ∧ bp.time.getD inst.time ≤ nowT)) := by
  refine ⟨?_, ?_, ?_, ?_, ?_⟩
  · intro hu hr hviol
    exact reserve_err_validate hu (bookerReserveValidate_past hr hviol)
  · intro hviol db2 h
    obtain ⟨-, hv, -⟩ := reserve_ok_elim h
    obtain ⟨-, h2, h3, -⟩ := bookerReserveValidate_none hv
    rcases hviol with hh | hh
    · exact h3 hh
    · exact h2 hh
  · intro hfu hd hlt
    have hvd : bookerUpd_validate_date today d2 = some .pastDateOrTime := by
      unfold bookerUpd_validate_date
      rw [if_pos hlt]
    have hfe : bookerUpdFieldErrors today bp = some .pastDateOrTime := by
      unfold bookerUpdFieldErrors
      rw [hd, Option.some_bind, hvd]
    rw [updateMyAppointment_eq_inst bp hfu]
    exact updateMyAppointmentInst_err_field hfe
  · intro hfu hfe hdt htt
    rw [updateMyAppointment_eq_inst bp hfu]
    exact updateMyAppointmentInst_err_validate hfe
      (bookerUpdValidate_past ⟨hdt, htt⟩)
  · intro hfu db2 h
    rw [updateMyAppointment_eq_inst bp hfu] at h
    obtain ⟨hfe, hv, -⟩ := updateMyAppointmentInst_ok_elim h
    obtain ⟨hdb, -⟩ := bookerUpdFieldErrors_none_elim hfe
    refine ⟨?_, (bookerUpdValidate_none_elim hv).1⟩
    intro d3 hd3 hlt
    rw [hd3, Option.some_bind] at hdb
    unfold bookerUpd_validate_date at hdb
    rw [if_pos hlt] at hdb
    cases hdb

/-- Counterexample for C6 as stated: a booker creation whose date (5) lies
before today (10) but whose scheduler is not in the roster is rejected with
`SchedulerNotInRoster`, not with `PastDateOrTime` — the roster check runs
first. -/
theorem c6_counterexample :
    reserveAppointment [] ⟨1, none, [], "n", "f", "p"⟩ 10 0 4 5 (timeHM 9 0)
        none 0 = .error .schedulerNotInRoster
    ∧ (5 : Date) < 10
    ∧ VError.schedulerNotInRoster ≠ VError.pastDateOrTime :=
  ⟨rfl, by decide, by decide⟩

/-- Witness for C6: with the scheduler in the roster and no upcoming
appointment, a past-date booker reservation is rejected with
`PastDateOrTime`. -/
theorem c6_witness :
    reserveAppointment [] ⟨1, none, [4], "n", "f", "p"⟩ 10 0 4 5 (timeHM 9 0)
        none 0 = .error .pastDateOrTime :=
  (c6_date_not_past [] ⟨1, none, [4], "n", "f", "p"⟩ 10 0 4 5 (timeHM 9 0)
      none 0 1 ⟨none, none, none⟩ ⟨1, 4, some 1, "", 11, 0, none, 0⟩ 0).1
    (by decide) (by decide) (Or.inl (by decide))

/-- C3 (amended): the 08:00 - 20:00 window (08:00 accepted, 20:00 and 07:59
rejected with `InvalidTimeWindow`) is enforced only on admin-initiated
creation and on booker-initiated update; scheduler-initiated creation and
update and booker-initiated creation never reject a time with
`InvalidTimeWindow`. -/
theorem c3_time_window
    (db : List Appointment) (bk : BookerId) (s : SchedulerId) (d : Date)
    (t : Time) (note : Option String) (ts : Nat) (bf : Option BookerId)
    (nm : String) (i : ApptId) (p : SchedUpdatePayload) (bkr : Booker)
    (today : Date) (nowT : Time) (bp : BookerUpdatePayload) (bk2 : BookerId)
    (inst : Appointment) :
    ((t < timeHM 8 0 ∨ timeHM 20 0 ≤ t) →
        adminCreateAppointment db bk s d t note ts = .error .invalidTimeWindow)
    ∧ (∀ db2, adminCreateAppointment db bk s d t note ts = .ok db2 →
        timeHM 8 0 ≤ t ∧ t < timeHM 20 0)
    ∧ validate_time (timeHM 8 0) = none
    ∧ validate_time (timeHM 20 0) = some .invalidTimeWindow
    ∧ validate_time (timeHM 7 59) = some .invalidTimeWindow
    ∧ (firstUpcoming db bk2 today nowT = some inst →
        bp.date.bind (fun d3 => bookerUpd_validate_date today d3) = none →
        bp.time = some t → (t < timeHM 8 0 ∨ timeHM 20 0 ≤ t) →
        updateMyAppointment db bk2 today nowT bp = .error .invalidTimeWindow)
    ∧ (∀ e, schedulerManageCreate db s bf nm d t note ts = .error e →
        e ≠ .invalidTimeWindow)
    ∧ (∀ e, schedulerManageUpdate db s i p = .error e → e ≠ .invalidTimeWindow)
    ∧ (∀ e, reserveAppointment db bkr today nowT s d t note ts = .error e →
        e ≠ .invalidTimeWindow) := by
  refine ⟨?_, ?_, by decide, by decide, by decide, ?_, ?_, ?_, ?_⟩
  · exact adminCreate_err_window
  · intro db2 h
    have hw := (adminCreate_ok_elim h).1
    push_neg at hw
    exact hw
  · intro hfu hdb hbt hw
    have hvt : bookerUpd_validate_time t = some .invalidTimeWindow := by
      unfold bookerUpd_validate_time
      rw [if_pos hw]
    have hfe : bookerUpdFieldErrors today bp = some .invalidTimeWindow := by
      unfold bookerUpdFieldErrors
      rw [hdb]
      show bp.time.bind bookerUpd_validate_time = some .invalidTimeWindow
      rw [hbt, Option.some_bind, hvt]
    rw [updateMyAppointment_eq_inst bp hfu]
    exact updateMyAppointmentInst_err_field hfe
  · intro e h
    rcases schedulerManageCreate_error_cases h with h1 | h1 | h1 <;> simp_all
  · intro e h
    rcases schedulerManageUpdate_error_cases h with h1 | h1 | h1 | h1 <;> simp_all
  · intro e h
    rcases reserve_error_cases h with h1 | h1 | h1 | h1 | h1 <;> simp_all

theorem schedulerPanelValidate_none_ctx {db : List Appointment}
    {ip bt nt : Bool} {d : Date} {t : Time} {e : VError}
    (h : schedulerPanelValidate db none ip bt nt d t = some e) :
    e = .missingBookerIdentity := by
  unfold schedulerPanelValidate at h
  split_ifs at h <;> simp_all

theorem schedulerManageUpdate_error_kinds {db : List Appointment}
    {s : SchedulerId} {i : ApptId} {p : SchedUpdatePayload} {e : VError}
    (h : schedulerManageUpdate db s i p = .error e) :
    e = .notFound ∨ e = .missingBookerIdentity ∨ e = .integrityError := by
  unfold schedulerManageUpdate at h
  split at h
  · simp_all
  · next inst hfind =>
    unfold schedulerManageUpdateInst at h
    split at h
    · next e2 heq =>
      have := schedulerPanelValidate_none_ctx heq
      simp_all
    · exact Or.inr (Or.inr (storeUpdate_error_eq h))

theorem adminUpdate_error_kinds {db : List Appointment} {i : ApptId}
    {ap : AdminUpdatePayload} {e : VError}
    (h : adminUpdateAppointment db i ap = .error e) :
    e = .notFound ∨ e = .integrityError := by
  unfold adminUpdateAppointment at h
  split at h
  · simp_all
  · exact Or.inr (storeUpdate_error_eq h)

theorem bookerUpdValidate_no_conflict {db : List Appointment}
    {inst : Appointment} {today : Date} {nowT : Time} {p : BookerUpdatePayload}
    (hc : (db.any (fun b => b.scheduler == inst.scheduler
        && b.date == p.date.getD inst.date
        && b.time == p.time.getD inst.time && b.id != inst.id)) = false) :
    bookerUpdValidate db inst today nowT p = some .pastDateOrTime
      ∨ bookerUpdValidate db inst today nowT p = none := by
  unfold bookerUpdValidate
  split_ifs with h1 h2
  · exact Or.inl rfl
  · rw [h2] at hc
    cases hc
  · exact Or.inr rfl

/-- C2 (amended): only the booker-update path applies the slot-uniqueness
pre-check with self-exclusion by id — there the update is rejected with
`SlotAlreadyBooked` exactly on a conflict with another appointment (once
the earlier validators pass), and is never rejected with
`SlotAlreadyBooked` without one. The scheduler-update path never produces
`SlotAlreadyBooked` (its conflict check is guarded by
`scheduler and not self.instance`, and the update serializer gets neither),
and the admin-update path has no uniqueness validation at all; on those
paths a conflicting update is stopped only by the storage unique
constraint, surfacing as a raw integrity error. -/
theorem c2_update_slot_check
    (db : List Appointment) (bk2 : BookerId) (today : Date) (nowT : Time)
    (bp : BookerUpdatePayload) (inst : Appointment) (s : SchedulerId)
    (i : ApptId) (p : SchedUpdatePayload) (ap : AdminUpdatePayload) :
    (firstUpcoming db bk2 today nowT = some inst →
        bookerUpdFieldErrors today bp = none →
        ¬(bp.date.getD inst.date = today ∧ bp.time.getD inst.time ≤ nowT) →
        (∃ b ∈ db, b.scheduler = inst.scheduler
            ∧ b.date = bp.date.getD inst.date
            ∧ b.time = bp.time.getD inst.time ∧ b.id ≠ inst.id) →
        updateMyAppointment db bk2 today nowT bp = .error .slotAlreadyBooked)
    ∧ (firstUpcoming db bk2 today nowT = some inst →
        ¬(∃ b ∈ db, b.scheduler = inst.scheduler
            ∧ b.date = bp.date.getD inst.date
            ∧ b.time = bp.time.getD inst.time ∧ b.id ≠ inst.id) →
        updateMyAppointment db bk2 today nowT bp ≠ .error .slotAlreadyBooked)
    ∧ (∀ e, schedulerManageUpdate db s i p = .error e → e ≠ .slotAlreadyBooked)
    ∧ (∀ e, adminUpdateAppointment db i ap = .error e → e ≠ .slotAlreadyBooked) := by
  refine ⟨?_, ?_, ?_, ?_⟩
  · intro hfu hfe hnp hconf
    rw [updateMyAppointment_eq_inst bp hfu]
    have hc : (db.any (fun b => b.scheduler == inst.scheduler
        && b.date == bp.date.getD inst.date
        && b.time == bp.time.getD inst.time && b.id != inst.id)) = true :=
      (bookerConflict_iff db inst _ _).2 hconf
    exact updateMyAppointmentInst_err_validate hfe (bookerUpdValidate_slot hnp hc)
  · intro hfu hnoconf h
    rw [updateMyAppointment_eq_inst bp hfu] at h
    have hc : (db.any (fun b => b.scheduler == inst.scheduler
        && b.date == bp.date.getD inst.date
        && b.time == bp.time.getD inst.time && b.id != inst.id)) = false := by
      rcases hca : (db.any (fun b => b.scheduler == inst.scheduler
          && b.date == bp.date.getD inst.date
          && b.time == bp.time.getD inst.time && b.id != inst.id)) with _ | _
      · rfl
      · exact absurd ((bookerConflict_iff db inst _ _).1 hca) hnoconf
    rcases hfe : bookerUpdFieldErrors today bp with _ | e1
    · rcases @bookerUpdValidate_no_conflict db inst today nowT bp hc
        with hv | hv
      · rw [updateMyAppointmentInst_err_validate hfe hv] at h
        cases h
      · rw [updateMyAppointmentInst_eq_store hfe hv] at h
        have := storeUpdate_error_eq h
        cases this
    · rw [updateMyAppointmentInst_err_field hfe] at h
      rcases bookerUpdFieldErrors_some hfe with h1 | h1 <;> simp_all
  · intro e h
    rcases schedulerManageUpdate_error_kinds h with h1 | h1 | h1 <;> simp_all
  · intro e h
    rcases adminUpdate_error_kinds h with h1 | h1 <;> simp_all

/-- Counterexample for C2 as stated: a scheduler-panel update that moves
appointment 1 onto appointment 2's occupied slot passes the serializer
validation (the conflict check is skipped on updates) and is stopped only
by the storage unique constraint as a raw integrity error — not rejected
with `SlotAlreadyBooked`. -/
theorem c2_counterexample :
    schedulerManageUpdate
        [⟨1, 4, some 1, "", 11, timeHM 9 0, none, 0⟩,
         ⟨2, 4, some 2, "", 11, timeHM 10 0, none, 0⟩] 4 1
        ⟨none, some "x", some 11, some (timeHM 10 0), none⟩
      = .error .integrityError
    ∧ VError.integrityError ≠ VError.slotAlreadyBooked :=
  ⟨rfl, by decide⟩

/-- Witness for C2: a booker update that collides with another appointment
of the same scheduler is rejected with `SlotAlreadyBooked`. -/
theorem c2_witness :
    updateMyAppointment
        [⟨1, 4, some 1, "", 11, timeHM 9 0, none, 0⟩,
         ⟨2, 4, some 2, "", 11, timeHM 10 0, none, 0⟩] 1 10 0
        ⟨some 11, some (timeHM 10 0), none⟩ = .error .slotAlreadyBooked :=
  (c2_update_slot_check
      [⟨1, 4, some 1, "", 11, timeHM 9 0, none, 0⟩,
       ⟨2, 4, some 2, "", 11, timeHM 10 0, none, 0⟩] 1 10 0
      ⟨some 11, some (timeHM 10 0), none⟩ ⟨1, 4, some 1, "", 11, timeHM 9 0, none, 0⟩
      4 1 ⟨none, none, none, none, none⟩ ⟨none, none, none⟩).1
    (by decide) (by decide) (by decide)
    ⟨⟨2, 4, some 2, "", 11, timeHM 10 0, none, 0⟩, by decide, by decide,
      by decide, by decide, by decide⟩

/-- C4 (amended): on the verify-otp endpoint, a missing (phone, code) match
yields `NotFound`, an expired most-recent match yields `Expired` (no tokens
issued), and a fresh match yields tokens when a role profile is reachable
from the phone. On the login-verify endpoint a missing match also yields
`NotFound`, but no expiry check is performed: any matching (phone, code)
row — however old — yields tokens when a role profile is reachable. -/
theorem c4_otp_verification
    (otps : List OTP) (rus : List RoleUser) (bkrs : List Booker)
    (scheds : List Scheduler) (phone code : String) (now : Nat) (o : OTP)
    (ru : RoleUser) :
    ((otps.filter fun o2 => o2.phone == phone && o2.code == code).getLast?
        = none →
      verify_otp otps rus bkrs scheds phone code now = .notFound
      ∧ login_verify otps rus bkrs scheds phone code now = .notFound)
    ∧ ((otps.filter fun o2 => o2.phone == phone && o2.code == code).getLast?
        = some o →
      otp_is_expired now o = true →
      verify_otp otps rus bkrs scheds phone code now = .expired)
    ∧ ((otps.filter fun o2 => o2.phone == phone && o2.code == code).getLast?
        = some o →
      otp_is_expired now o = false →
      roleUserForPhone rus bkrs scheds phone = some ru →
      verify_otp otps rus bkrs scheds phone code now = .tokens ru.user)
    ∧ ((otps.any fun o2 => o2.phone == phone && o2.code == code) = true →
      roleUserForPhone rus bkrs scheds phone = some ru →
      login_verify otps rus bkrs scheds phone code now = .tokens ru.user) := by
  refine ⟨?_, ?_, ?_, ?_⟩
  · intro hlast
    constructor
    · unfold verify_otp
      rw [hlast]
    · have hfil : (otps.filter fun o2 => o2.phone == phone && o2.code == code)
          = [] := by
        rwa [List.getLast?_eq_none_iff] at hlast
      have hany : (otps.any fun o2 => o2.phone == phone && o2.code == code)
          = false := by
        rcases ha : (otps.any fun o2 => o2.phone == phone && o2.code == code)
          with _ | _
        · rfl
        · obtain ⟨x, hx, hpx⟩ := List.any_eq_true.1 ha
          exact absurd hpx (List.filter_eq_nil_iff.1 hfil x hx)
      unfold login_verify
      rw [if_neg (by simp [hany])]
  · intro hlast hexp
    unfold verify_otp
    rw [hlast]
    show (if otp_is_expired now o then VerifyOutcome.expired
        else match roleUserForPhone rus bkrs scheds phone with
          | some ru2 => VerifyOutcome.tokens ru2.user
          | none => VerifyOutcome.userNotFound) = VerifyOutcome.expired
    rw [if_pos hexp]
  · intro hlast hexp hru
    unfold verify_otp
    rw [hlast]
    show (if otp_is_expired now o then VerifyOutcome.expired
        else match roleUserForPhone rus bkrs scheds phone with
          | some ru2 => VerifyOutcome.tokens ru2.user
          | none => VerifyOutcome.userNotFound) = VerifyOutcome.tokens ru.user
    rw [if_neg (by simp [hexp]), hru]
  · intro hany hru
    unfold login_verify
    rw [if_pos hany, hru]

/-- Counterexample for C4 as stated: an OTP issued at time 0 and verified
at time 1000 (well past the 3-minute window) is rejected with `Expired` on
verify-otp, but the login-verify endpoint never checks expiry and issues
tokens for the same request. -/
theorem c4_counterexample :
    verify_otp [⟨"09123456789", "111111", 0⟩] [⟨1, 10, "booker"⟩]
        [⟨1, some 1, [], "n", "f", "09123456789"⟩] [] "09123456789" "111111"
        1000 = .expired
    ∧ login_verify [⟨"09123456789", "111111", 0⟩] [⟨1, 10, "booker"⟩]
        [⟨1, some 1, [], "n", "f", "09123456789"⟩] [] "09123456789" "111111"
        1000 = .tokens 10
    ∧ VerifyOutcome.tokens 10 ≠ .expired :=
  ⟨rfl, rfl, by decide⟩

/-- Witness for C4: a wrong code yields `NotFound` on both endpoints, and a
fresh code with a reachable profile yields tokens on verify-otp. -/
theorem c4_witness :
    (verify_otp [⟨"09123456789", "111111", 0⟩] [⟨1, 10, "booker"⟩]
        [⟨1, some 1, [], "n", "f", "09123456789"⟩] [] "09123456789" "222222"
        50 = .notFound
      ∧ login_verify [⟨"09123456789", "111111", 0⟩] [⟨1, 10, "booker"⟩]
        [⟨1, some 1, [], "n", "f", "09123456789"⟩] [] "09123456789" "222222"
        50 = .notFound)
    ∧ verify_otp [⟨"09123456789", "111111", 0⟩] [⟨1, 10, "booker"⟩]
        [⟨1, some 1, [], "n", "f", "09123456789"⟩] [] "09123456789" "111111"
        50 = .tokens 10 :=
  ⟨(c4_otp_verification [⟨"09123456789", "111111", 0⟩] [⟨1, 10, "booker"⟩]
      [⟨1, some 1, [], "n", "f", "09123456789"⟩] [] "09123456789" "222222" 50
      ⟨"", "", 0⟩ ⟨1, 10, "booker"⟩).1 (by decide),
   (c4_otp_verification [⟨"09123456789", "111111", 0⟩] [⟨1, 10, "booker"⟩]
      [⟨1, some 1, [], "n", "f", "09123456789"⟩] [] "09123456789" "111111" 50
      ⟨"09123456789", "111111", 0⟩ ⟨1, 10, "booker"⟩).2.2.1 (by decide)
      (by decide) (by decide)⟩

/-- Counterexample for C3 as stated: a booker reservation at 21:00 — a time
outside the 08:00 - 20:00 window — succeeds and writes the appointment; the
booker creation path has no time-window validation at all. -/
theorem c3_counterexample :
    reserveAppointment [] ⟨1, none, [4], "n", "f", "p"⟩ 10 0 4 11 (timeHM 21 0)
        none 0 = .ok [⟨1, 4, some 1, "", 11, timeHM 21 0, none, 0⟩]
    ∧ timeHM 20 0 ≤ timeHM 21 0 :=
  ⟨rfl, by decide⟩

/-- Witness for C3: an admin create attempt at exactly 20:00 is rejected
with `InvalidTimeWindow`. -/
theorem c3_witness :
    adminCreateAppointment [] 9 4 11 (timeHM 20 0) none 0
      = .error .invalidTimeWindow :=
  (c3_time_window [] 9 4 11 (timeHM 20 0) none 0 none "x" 1
      ⟨none, none, none, none, none⟩ ⟨1, none, [], "n", "f", "p"⟩ 0 0
      ⟨none, none, none⟩ 1 ⟨1, 4, none, "", 0, 0, none, 0⟩).1
    (Or.inr (by decide))

theorem paginate_queryset_sorted (qs : List Appointment) :
    (paginate_queryset qs).Pairwise timeLeKey := by
  unfold paginate_queryset
  have hs : (qs.insertionSort timeLeKey).Pairwise timeLeKey := by
    have h := List.sorted_insertionSort timeLeKey qs
    exact h
  exact hs.sublist (List.take_sublist _ _)

theorem paginate_queryset_length (qs : List Appointment) :
    (paginate_queryset qs).length ≤ AppointmentsCPagination.page_size := by
  unfold paginate_queryset
  exact List.length_take_le _ _

/-- C9 (amended): every paginated appointment listing uses
`AppointmentsCPagination` — fixed page size 5 with the cursor ordering key
time-of-day ascending — and the delivered page of every such listing, the
admin listing included, is sorted by time-of-day ascending, because the
cursor paginator re-orders the queryset by its own ordering key, replacing
the admin view's creation-descending (and the scheduler view's
date-descending) queryset order. -/
theorem c9_pagination (db : List Appointment) (s : SchedulerId) :
    AppointmentsCPagination.page_size = 5
    ∧ (list_appointments db).length ≤ AppointmentsCPagination.page_size
    ∧ (list_appointments db).Pairwise timeLeKey
    ∧ (scheduler_appointments db s).length ≤ AppointmentsCPagination.page_size
    ∧ (scheduler_appointments db s).Pairwise timeLeKey :=
  ⟨rfl,
   paginate_queryset_length _,
   paginate_queryset_sorted _,
   paginate_queryset_length _,
   paginate_queryset_sorted _⟩

/-- Counterexample for C9 as stated: two appointments where the creation
order disagrees with the time-of-day order; the admin listing page comes
back sorted by time ascending — appointment 1 (created first, at 100)
before appointment 2 (created at 200) — so it is not ordered by creation
timestamp descending. -/
theorem c9_counterexample :
    list_appointments
        [⟨1, 4, none, "", 11, timeHM 9 0, none, 100⟩,
         ⟨2, 4, none, "", 11, timeHM 10 0, none, 200⟩]
      = [⟨1, 4, none, "", 11, timeHM 9 0, none, 100⟩,
         ⟨2, 4, none, "", 11, timeHM 10 0, none, 200⟩]
    ∧ ¬(List.Pairwise createdDesc
        (list_appointments
          [⟨1, 4, none, "", 11, timeHM 9 0, none, 100⟩,
           ⟨2, 4, none, "", 11, timeHM 10 0, none, 200⟩]))
    ∧ (100 : Nat) < 200 := by
  refine ⟨rfl, ?_, by decide⟩
  intro hpw
  have h := List.rel_of_pairwise_cons (by exact hpw) (List.mem_singleton.2 rfl)
  simp [createdDesc] at h

theorem updateMyAppointment_none {db : List Appointment} {bk : BookerId}
    {today : Date} {nowT : Time} (p : BookerUpdatePayload)
    (hfu : firstUpcoming db bk today nowT = none) :
    updateMyAppointment db bk today nowT p = .error .notFound := by
  unfold updateMyAppointment
  rw [hfu]

theorem firstUpcoming_mem {db : List Appointment} {bk : BookerId}
    {today : Date} {nowT : Time} {inst : Appointment}
    (hfu : firstUpcoming db bk today nowT = some inst) : inst ∈ db := by
  unfold firstUpcoming at hfu
  have h1 : inst ∈ (db.filter fun a => a.booker == some bk
      && isUpcoming today nowT a).insertionSort dateTimeLe := by
    apply List.mem_of_mem_head?
    rw [hfu]
    simp
  have h2 := (List.perm_insertionSort dateTimeLe
    (db.filter fun a => a.booker == some bk && isUpcoming today nowT a)).subset h1
  exact List.mem_of_mem_filter h2

/-- C10: a successful booker-initiated update of the booker's upcoming
appointment changes only the date, time and note fields of the selected
appointment: the rows of the saved table correspond one-to-one to the old
rows, every row keeps its id, scheduler, linked booker, free-text booker
name and creation timestamp, and any row that changed at all is the
selected upcoming appointment. (The id-uniqueness hypothesis is the
database primary-key invariant.) -/
theorem c10_booker_update_frame
    (db : List Appointment) (bk2 : BookerId) (today : Date) (nowT : Time)
    (bp : BookerUpdatePayload) (db2 : List Appointment)
    (hids : (db.map fun a => a.id).Nodup)
    (h : updateMyAppointment db bk2 today nowT bp = .ok db2) :
    List.Forall₂ (fun a a2 =>
      a2.id = a.id ∧ a2.scheduler = a.scheduler ∧ a2.booker = a.booker
      ∧ a2.booker_name = a.booker_name ∧ a2.created_at = a.created_at
      ∧ (a2 ≠ a → firstUpcoming db bk2 today nowT = some a)) db db2 := by
  rcases hfu : firstUpcoming db bk2 today nowT with _ | inst
  · rw [updateMyAppointment_none bp hfu] at h
    cases h
  · rw [updateMyAppointment_eq_inst bp hfu] at h
    obtain ⟨hfe, hv, hst⟩ := updateMyAppointmentInst_ok_elim h
    obtain ⟨hsafe, rfl⟩ := (storeUpdate_ok_iff _ _ _).1 hst
    rw [List.forall₂_map_right_iff, List.forall₂_same]
    intro x hx
    split_ifs with hxa
    · have hxid : x.id = inst.id := by simpa using hxa
      have hinst : inst ∈ db := firstUpcoming_mem hfu
      have hxeq : x = inst := List.inj_on_of_nodup_map hids hx hinst hxid
      subst hxeq
      exact ⟨rfl, rfl, rfl, rfl, rfl, fun _ => rfl⟩
    · exact ⟨rfl, rfl, rfl, rfl, rfl, fun hne => absurd rfl hne⟩

/-- Witness for C10: updating the single upcoming appointment's time from
09:00 to 11:00 keeps its id, scheduler, booker, booker name and creation
timestamp, and the changed row is the selected appointment. -/
theorem c10_witness :
    List.Forall₂ (fun a a2 =>
      a2.id = a.id ∧ a2.scheduler = a.scheduler ∧ a2.booker = a.booker
      ∧ a2.booker_name = a.booker_name ∧ a2.created_at = a.created_at
      ∧ (a2 ≠ a →
          firstUpcoming [⟨1, 4, some 1, "", 11, timeHM 9 0, none, 5⟩] 1 10 0
            = some a))
      [⟨1, 4, some 1, "", 11, timeHM 9 0, none, 5⟩]
      [⟨1, 4, some 1, "", 11, timeHM 11 0, none, 5⟩] :=
  c10_booker_update_frame [⟨1, 4, some 1, "", 11, timeHM 9 0, none, 5⟩] 1 10 0
    ⟨none, some (timeHM 11 0), none⟩
    [⟨1, 4, some 1, "", 11, timeHM 11 0, none, 5⟩] (by decide) rfl

end Appoint
